import Mathlib

/-!
Verification of the narrative-engine core of `swimming_star_game.py`.

Every definition below is a shallow embedding of the corresponding Python
function; machine integers are modelled as `Int` (Python integers are
unbounded), fallible operations (those raising `ValueError`) return
`Option`, and printing is dropped since it never affects the state.
-/

/-- `EnergyPool`: bounded numeric resource with `current` and `maximum`. -/
structure EnergyPool where
  current : Int
  maximum : Int
deriving DecidableEq, Repr

/-- `can_spend(amount)`: true iff `current >= amount`. -/
def EnergyPool.can_spend (p : EnergyPool) (amount : Int) : Bool :=
  decide (p.current ≥ amount)

/-- The body of `spend` past the negative-amount guard: zero out and report
failure when funds are insufficient, otherwise deduct and report success. -/
def EnergyPool.spendRun (p : EnergyPool) (amount : Int) : EnergyPool × Bool :=
  if ¬ p.can_spend amount then ({ p with current := 0 }, false)
  else ({ p with current := p.current - amount }, true)

/-- `spend(amount)`: `none` models the `ValueError` raised on a negative
amount. -/
def EnergyPool.spend (p : EnergyPool) (amount : Int) : Option (EnergyPool × Bool) :=
  if amount < 0 then none else some (p.spendRun amount)

/-- The body of `restore` past the negative-amount guard: add and clamp to
`maximum`. -/
def EnergyPool.restoreClamped (p : EnergyPool) (amount : Int) : EnergyPool :=
  { p with current := min p.maximum (p.current + amount) }

/-- `restore(amount)`: `none` models the `ValueError` raised on a negative
amount. -/
def EnergyPool.restore (p : EnergyPool) (amount : Int) : Option EnergyPool :=
  if amount < 0 then none else some (p.restoreClamped amount)

/-- `is_depleted()`: `current <= 0`. -/
def EnergyPool.is_depleted (p : EnergyPool) : Bool :=
  decide (p.current ≤ 0)

/-- `GameState`: the single mutable record threaded through the whole run. -/
structure GameState where
  energy : EnergyPool
  skills : List String := []
  allies : List String := []
  negative_influence : Int := 0
  entity_presence : Int := 3
  entity_trust : Int := 0
  rest_count : Int := 0
deriving DecidableEq, Repr

/-- The state built in `main`: `GameState(energy=EnergyPool(current=10, maximum=12))`. -/
def initial_state : GameState :=
  { energy := { current := 10, maximum := 12 } }

/-- `check_energy(state)`: true exactly when the run terminates there
(`is_depleted` raises `SystemExit`). It never mutates the state. -/
def check_energy (s : GameState) : Bool :=
  s.energy.is_depleted

/-- Python's `str.strip()` with no argument: drop leading and trailing
whitespace. -/
def py_strip (s : String) : String :=
  ⟨((s.data.dropWhile Char.isWhitespace).reverse.dropWhile Char.isWhitespace).reverse⟩

/-- Python's `str.lower()` restricted to ASCII letters. -/
def py_lower (s : String) : String :=
  ⟨s.data.map Char.toLower⟩

/-- `rest(state, reason)`: `rest_count += 1`, `restore(4)` (the constant 4 is
non-negative so the `ValueError` branch of `restore` is unreachable),
`entity_presence = min(entity_presence + 1, 4)`. -/
def rest (s : GameState) : GameState :=
  { s with rest_count := s.rest_count + 1,
           energy := s.energy.restoreClamped 4,
           entity_presence := min (s.entity_presence + 1) 4 }

/-- `PlanetEncounter`: immutable description of one narrative beat. -/
structure PlanetEncounter where
  name : String
  disposition : String
  reward : Int := 3
  penalty : Int := 3
deriving DecidableEq, Repr

/-- `is_beneficial`: `disposition == "benefique"`. -/
def PlanetEncounter.is_beneficial (e : PlanetEncounter) : Bool :=
  decide (e.disposition = "benefique")

/-- `encounter_cat_planet(state)` with the player-supplied world name as a
parameter: appends the (defaulted) name to `allies`, `restore(3)`,
`entity_presence = min(entity_presence + 1, 4)`. -/
def encounter_cat_planet (s : GameState) (typed : String) : GameState :=
  let name := if py_strip typed = "" then "Ronronia" else py_strip typed
  { s with allies := s.allies ++ [name],
           energy := s.energy.restoreClamped 3,
           entity_presence := min (s.entity_presence + 1) 4 }

/-- `resist_exhausting_planet(state)`: if `can_spend(2)` fails, fall back to a
`rest`; otherwise `spend(2)` and decrement `negative_influence` with floor 0.
(The trailing `check_energy` calls mutate nothing.) -/
def resist_exhausting_planet (s : GameState) : GameState :=
  if ¬ s.energy.can_spend 2 then rest s
  else
    { s with energy := (s.energy.spendRun 2).1,
             negative_influence := max 0 (s.negative_influence - 1) }

/-- `call_allies_against_planet(state, encounter)`: no-op when `allies` is
empty; otherwise drop the first ally (`allies[1:]`), decrement
`negative_influence` with floor 0 and increment `entity_presence` capped
at 4. The encounter argument only feeds the printed message. -/
def call_allies_against_planet (s : GameState) (_enc : PlanetEncounter) : GameState :=
  if s.allies = [] then s
  else
    { s with allies := s.allies.tail,
             negative_influence := max 0 (s.negative_influence - 1),
             entity_presence := min (s.entity_presence + 1) 4 }

/-- `consult_wise_entity(state, encounter)`: no-op when `entity_presence <= 0`;
otherwise `entity_trust += 1`. The guidance lines depend on the encounter and
`negative_influence` but are only printed. -/
def consult_wise_entity (s : GameState) (_enc : Option PlanetEncounter) : GameState :=
  if s.entity_presence ≤ 0 then s
  else { s with entity_trust := s.entity_trust + 1 }

/-- How the `approach` handler of `interact_with_planet` can end:
the run terminated inside it (`check_energy` raised), the handler returned
without offering the sub-choice menu, or the sub-choice menu was presented
with the state it would see. -/
inductive ApproachOutcome where
  | terminated (s : GameState)
  | returned (s : GameState)
  | subMenu (s : GameState)
deriving DecidableEq, Repr

/-- The state carried by an `ApproachOutcome`. -/
def ApproachOutcome.state : ApproachOutcome → GameState
  | .terminated s => s
  | .returned s => s
  | .subMenu s => s

/-- The `approach` closure of `interact_with_planet`. Beneficial encounter:
gain an ally and `restore(reward)`. Draining encounter with insufficient
energy: `spend(penalty)` (zeroing `current`), then `check_energy`, then
return without the sub-choice menu. Draining encounter with sufficient
energy: `spend(penalty)`, `negative_influence += 1`, `entity_presence`
decremented with floor 0, `check_energy`, then the resist/ally/rest
sub-choice menu. The encounters in `travel_among_planets` all have
`reward = penalty = 3`, so the `ValueError` branches of `spend`/`restore`
are unreachable and the clamped cores are used. -/
def approach (s : GameState) (enc : PlanetEncounter) : ApproachOutcome :=
  if enc.is_beneficial then
    .returned { s with allies := s.allies ++ [enc.name],
                       energy := s.energy.restoreClamped enc.reward }
  else if ¬ s.energy.can_spend enc.penalty then
    let s1 := { s with energy := (s.energy.spendRun enc.penalty).1 }
    if check_energy s1 then .terminated s1 else .returned s1
  else
    let s1 := { s with energy := (s.energy.spendRun enc.penalty).1,
                       negative_influence := s.negative_influence + 1,
                       entity_presence := max (s.entity_presence - 1) 0 }
    if check_energy s1 then .terminated s1 else .subMenu s1

/-- The tail of `interact_with_planet` (after `prompt_choice` returns):
`resolved` is forced to `True` if still `False`, then the trust adjustment
runs. -/
def trust_adjustment (s : GameState) (enc : PlanetEncounter) (resolved : Bool) : GameState :=
  let resolved := if ¬ resolved then true else resolved
  if enc.is_beneficial ∧ resolved then
    { s with entity_trust := s.entity_trust + 1 }
  else if ¬ enc.is_beneficial ∧ s.negative_influence > 0 then
    { s with entity_trust := max (s.entity_trust - 1) (-3) }
  else s

/-- The `skills` catalog of `run_skill_tree`: key ↦ (display name, cost).
The description strings are only printed. -/
def skill_catalog : String → Option (String × Int)
  | "solidarite" => some ("Éclat de Solidarité", 2)
  | "lullaby" => some ("Berceuse Résonante", 2)
  | "lantern" => some ("Lanternes de Guidage", 3)
  | _ => none

/-- The loop-local state of `run_skill_tree`: the `acquired` set (modelled as
a duplicate-free list of keys) together with the game state. -/
structure SkillTreeState where
  acquired : List String
  game : GameState
deriving DecidableEq, Repr

/-- How one call of the `learn` closure ends: a `KeyError` on an unknown key,
the run terminated by a `check_energy` inside it, or a normal return. -/
inductive LearnResult where
  | keyError
  | terminated (st : SkillTreeState)
  | ok (st : SkillTreeState)
deriving DecidableEq, Repr

/-- The `learn` closure of `run_skill_tree`: already-acquired keys are a
no-op; with insufficient energy it rests (then `check_energy`); otherwise it
spends the cost, records the key in `acquired`, appends the display name to
`state.skills` and runs `check_energy`. -/
def learn (st : SkillTreeState) (key : String) : LearnResult :=
  if key ∈ st.acquired then .ok st
  else
    match skill_catalog key with
    | none => .keyError
    | some (name, cost) =>
      if ¬ st.game.energy.can_spend cost then
        let g := rest st.game
        if check_energy g then .terminated { st with game := g }
        else .ok { st with game := g }
      else
        let g := { st.game with energy := (st.game.energy.spendRun cost).1,
                                skills := st.game.skills ++ [name] }
        let st1 : SkillTreeState := { acquired := st.acquired ++ [key], game := g }
        if check_energy g then .terminated st1 else .ok st1

/-- `gain_clarity(state, amount)`: `entity_trust += 1`, `restore(amount)`,
`entity_presence` incremented capped at 4. All call sites pass 2, 3 or 4. -/
def gain_clarity (s : GameState) (amount : Int) : GameState :=
  { s with entity_trust := s.entity_trust + 1,
           energy := s.energy.restoreClamped amount,
           entity_presence := min (s.entity_presence + 1) 4 }

/-- `gamble_energy(state, gain, cost)`: on `can_spend(cost)`, spend then
`restore(gain)`; otherwise spend anyway (zeroing `current`, then
`check_energy`). All call sites pass positive constants. -/
def gamble_energy (s : GameState) (gain cost : Int) : GameState :=
  if s.energy.can_spend cost then
    { s with energy := ((s.energy.spendRun cost).1).restoreClamped gain }
  else
    { s with energy := (s.energy.spendRun cost).1 }

/-- `bolster_presence(state)`: `entity_presence` + 2 capped at 4, `restore(1)`. -/
def bolster_presence (s : GameState) : GameState :=
  { s with entity_presence := min (s.entity_presence + 2) 4,
           energy := s.energy.restoreClamped 1 }

/-- `soothe_influences(state)`: `negative_influence` decremented with floor 0,
`restore(2)`. -/
def soothe_influences (s : GameState) : GameState :=
  { s with negative_influence := max 0 (s.negative_influence - 1),
           energy := s.energy.restoreClamped 2 }

/-- `share_burden(state)`: with at least one ally, print a message naming
`allies[-1]` and `restore(3)`; with none, `restore(1)`. The ally list itself
is never modified. -/
def share_burden (s : GameState) : GameState :=
  if s.allies ≠ [] then { s with energy := s.energy.restoreClamped 3 }
  else { s with energy := s.energy.restoreClamped 1 }

/-- `weave_support(state)`: allies granted by previously acquired skills,
then `restore(3)`. -/
def weave_support (s : GameState) : GameState :=
  let gained :=
    (if "Lanternes de Guidage" ∈ s.skills then ["Lanterniers du Néant"] else []) ++
    (if "Berceuse Résonante" ∈ s.skills then ["Chorale des Calmes"] else [])
  { s with allies := s.allies ++ gained,
           energy := s.energy.restoreClamped 3 }

/-- `orchestrate_alliance(state)`: `restore(max(1, len(allies)))`,
`entity_trust += 1`. -/
def orchestrate_alliance (s : GameState) : GameState :=
  { s with energy := s.energy.restoreClamped (max 1 (s.allies.length : Int)),
           entity_trust := s.entity_trust + 1 }

/-- One line of player input at a prompt: end-of-input (`EOFError`) or a line. -/
inductive InputLine where
  | eofLine
  | line (s : String)
deriving DecidableEq, Repr

/-- The outcome of one iteration of the `prompt_choice` loop on one input:
quit the program (`farewell`), re-prompt, or dispatch the 0-based handler
index. -/
inductive PromptOutcome where
  | quitGame
  | reprompt
  | dispatch (idx : Nat)
deriving DecidableEq, Repr

/-- Python's `str.isdigit` restricted to ASCII: non-empty and all digits. -/
def str_isdigit (s : String) : Bool :=
  decide (s.data ≠ []) && s.data.all Char.isDigit

/-- One iteration of the `prompt_choice` loop reading one `InputLine`, for a
menu of `numChoices` entries: `EOFError` quits; a stripped, lowercased
"quit"/"exit" quits; a non-digit line re-prompts; an out-of-range number
re-prompts; otherwise the 1-based choice dispatches handler `value - 1`. -/
def prompt_step (inp : InputLine) (numChoices : Nat) : PromptOutcome :=
  match inp with
  | .eofLine => .quitGame
  | .line s =>
    let raw := py_strip s
    if py_lower raw = "quit" ∨ py_lower raw = "exit" then .quitGame
    else if ¬ str_isdigit raw then .reprompt
    else
      match raw.toNat? with
      | none => .reprompt
      | some value =>
        if 1 ≤ value ∧ value ≤ numChoices then .dispatch (value - 1)
        else .reprompt

/-- The pool-level invariant: `0 ≤ current ≤ maximum`. -/
def PoolInv (p : EnergyPool) : Prop :=
  0 ≤ p.current ∧ p.current ≤ p.maximum

/-- The state invariant of the engine: pool invariant, `entity_presence`
in `[0, 4]`, `negative_influence ≥ 0`. -/
def Invariant (s : GameState) : Prop :=
  PoolInv s.energy ∧ 0 ≤ s.entity_presence ∧ s.entity_presence ≤ 4 ∧
    0 ≤ s.negative_influence

instance (p : EnergyPool) : Decidable (PoolInv p) := by
  unfold PoolInv; infer_instance

instance (s : GameState) : Decidable (Invariant s) := by
  unfold Invariant; infer_instance

/-! ## Shared helper lemmas -/

lemma poolInv_spendRun {p : EnergyPool} {a : Int} (ha : 0 ≤ a) (h : PoolInv p) :
    PoolInv (p.spendRun a).1 := by
  obtain ⟨h1, h2⟩ := h
  unfold EnergyPool.spendRun EnergyPool.can_spend
  split_ifs with hc
  all_goals simp_all [PoolInv]
  all_goals omega

lemma poolInv_restoreClamped {p : EnergyPool} {a : Int} (ha : 0 ≤ a) (h : PoolInv p) :
    PoolInv (p.restoreClamped a) := by
  obtain ⟨h1, h2⟩ := h
  unfold EnergyPool.restoreClamped
  constructor
  all_goals simp
  all_goals omega

lemma inv_rest {s : GameState} (h : Invariant s) : Invariant (rest s) := by
  obtain ⟨hp, h3, h4, h5⟩ := h
  refine ⟨poolInv_restoreClamped (by omega) hp, ?_, ?_, h5⟩
  · show 0 ≤ min (s.entity_presence + 1) 4
    omega
  · show min (s.entity_presence + 1) 4 ≤ 4
    omega

/-! ## Claim theorems -/

/-- C1: `spend(amount)` raises `ValueError` (modelled as `none`) on a negative
amount; when `amount > current` it zeroes `current` and returns failure;
otherwise it deducts `amount` and returns success. Concretely, from
`current = 10, maximum = 12`, `spend(3)` succeeds leaving `current = 7`, and a
subsequent `spend(20)` fails leaving `current = 0`. -/
theorem spec_C1_spend (p : EnergyPool) (a : Int) :
    (a < 0 → p.spend a = none) ∧
    (0 ≤ a → p.current < a → p.spend a = some ({ p with current := 0 }, false)) ∧
    (0 ≤ a → a ≤ p.current → p.spend a = some ({ p with current := p.current - a }, true)) ∧
    EnergyPool.spend { current := 10, maximum := 12 } 3
      = some ({ current := 7, maximum := 12 }, true) ∧
    EnergyPool.spend { current := 7, maximum := 12 } 20
      = some ({ current := 0, maximum := 12 }, false) := by
  refine ⟨?_, ?_, ?_, by decide, by decide⟩
  · intro h
    simp [EnergyPool.spend, h]
  · intro h1 h2
    simp [EnergyPool.spend, EnergyPool.spendRun, EnergyPool.can_spend]
    omega
  · intro h1 h2
    simp [EnergyPool.spend, EnergyPool.spendRun, EnergyPool.can_spend]
    omega

/-- Witness for C1 at concrete inputs. -/
theorem spec_C1_spend_witness :
    EnergyPool.spend { current := 10, maximum := 12 } (-1) = none ∧
    EnergyPool.spend { current := 2, maximum := 12 } 3
      = some ({ current := 0, maximum := 12 }, false) ∧
    EnergyPool.spend { current := 10, maximum := 12 } 3
      = some ({ current := 7, maximum := 12 }, true) :=
  ⟨(spec_C1_spend ⟨10, 12⟩ (-1)).1 (by decide),
   (spec_C1_spend ⟨2, 12⟩ 3).2.1 (by decide) (by decide),
   (spec_C1_spend ⟨10, 12⟩ 3).2.2.1 (by decide) (by decide)⟩

/-- C9: `restore(amount)` raises `ValueError` (modelled as `none`) on a
negative amount and otherwise sets `current` to
`min(maximum, current + amount)`; in particular when `current = maximum` any
non-negative restore leaves the pool unchanged. -/
theorem spec_C9_restore (p : EnergyPool) (a : Int) :
    (a < 0 → p.restore a = none) ∧
    (0 ≤ a → p.restore a = some { p with current := min p.maximum (p.current + a) }) ∧
    (0 ≤ a → p.current = p.maximum → p.restore a = some p) := by
  refine ⟨?_, ?_, ?_⟩
  · intro h
    simp [EnergyPool.restore, h]
  · intro h
    simp [EnergyPool.restore, EnergyPool.restoreClamped, not_lt.mpr h]
  · intro h hm
    have hmin : min p.maximum (p.current + a) = p.current := by omega
    simp [EnergyPool.restore, EnergyPool.restoreClamped, not_lt.mpr h, hmin]

/-- Witness for C9 at concrete inputs. -/
theorem spec_C9_restore_witness :
    EnergyPool.restore { current := 10, maximum := 12 } (-2) = none ∧
    EnergyPool.restore { current := 10, maximum := 12 } 5
      = some { current := 12, maximum := 12 } ∧
    EnergyPool.restore { current := 12, maximum := 12 } 7
      = some { current := 12, maximum := 12 } :=
  ⟨(spec_C9_restore ⟨10, 12⟩ (-2)).1 (by decide),
   (spec_C9_restore ⟨10, 12⟩ 5).2.1 (by decide),
   (spec_C9_restore ⟨12, 12⟩ 7).2.2 (by decide) (by decide)⟩

/-- A sample pool used in concrete witnesses. -/
def pool_5_12 : EnergyPool :=
  { current := 5, maximum := 12 }

/-- A sample mid-run state with one ally and pending negative influence. -/
def sample_one_ally : GameState :=
  { energy := pool_5_12, allies := ["Ronronia"], negative_influence := 2 }

/-- A sample mid-run state with no allies. -/
def sample_no_ally : GameState :=
  { energy := pool_5_12, negative_influence := 2 }

/-- C3 counterexample: on a state with exactly one ally, `share_burden` was
claimed to remove the last ally (leaving `allies.dropLast = []`), but the
resulting ally list is not `dropLast` of the input: the ally is still there. -/
theorem spec_C3_counterexample :
    ¬ ((share_burden sample_one_ally).allies = List.dropLast ["Ronronia"]) := by
  decide

/-- C3 amended: `share_burden` never modifies the ally list (the last ally is
only named in the printed message); it restores 3 energy when an ally is
present and 1 energy when none is, leaving every other field unchanged. -/
theorem spec_C3_share_burden (s : GameState) :
    (share_burden s).allies = s.allies ∧
    (share_burden s).skills = s.skills ∧
    (share_burden s).negative_influence = s.negative_influence ∧
    (share_burden s).entity_presence = s.entity_presence ∧
    (share_burden s).entity_trust = s.entity_trust ∧
    (share_burden s).rest_count = s.rest_count ∧
    (s.allies ≠ [] → (share_burden s).energy = s.energy.restoreClamped 3) ∧
    (s.allies = [] → (share_burden s).energy = s.energy.restoreClamped 1) := by
  unfold share_burden
  split_ifs with h
  all_goals simp_all

/-- Witness for C3 (amended) at concrete inputs. -/
theorem spec_C3_share_burden_witness :
    (share_burden sample_one_ally).energy = pool_5_12.restoreClamped 3 ∧
    (share_burden sample_no_ally).energy = pool_5_12.restoreClamped 1 :=
  ⟨(spec_C3_share_burden sample_one_ally).2.2.2.2.2.2.1 (by decide),
   (spec_C3_share_burden sample_no_ally).2.2.2.2.2.2.2 (by decide)⟩

/-- C4: `call_allies_against_planet` with an empty ally list is the identity
on the state (energy, allies, negative influence, presence, trust, skills and
rest count all unchanged); with a non-empty ally list it drops the first
(oldest) ally, decrements `negative_influence` with floor 0 and increments
`entity_presence` capped at 4, touching nothing else. -/
theorem spec_C4_call_allies (s : GameState) (enc : PlanetEncounter) :
    (s.allies = [] → call_allies_against_planet s enc = s) ∧
    (s.allies ≠ [] →
      call_allies_against_planet s enc =
        { s with allies := s.allies.tail,
                 negative_influence := max 0 (s.negative_influence - 1),
                 entity_presence := min (s.entity_presence + 1) 4 }) := by
  unfold call_allies_against_planet
  split_ifs with h
  all_goals simp_all

/-- A sample draining encounter (the last of the four fixed ones). -/
def sample_draining : PlanetEncounter :=
  { name := "Tourmente Obscure", disposition := "epuisante" }

/-- Witness for C4 at concrete inputs. -/
theorem spec_C4_call_allies_witness :
    call_allies_against_planet sample_no_ally sample_draining = sample_no_ally ∧
    call_allies_against_planet sample_one_ally sample_draining
      = { sample_one_ally with allies := [], negative_influence := 1,
                               entity_presence := 4 } :=
  ⟨(spec_C4_call_allies sample_no_ally sample_draining).1 (by decide),
   by
    have h := (spec_C4_call_allies sample_one_ally sample_draining).2 (by decide)
    rw [h]
    decide⟩

/-- C10: `consult_wise_entity` only ever touches `entity_trust`: presence,
energy, allies, negative influence, skills and rest count are unchanged in
every case; with positive presence it increments trust by exactly 1, and with
presence ≤ 0 it is the identity on the whole state. -/
theorem spec_C10_consult (s : GameState) (enc : Option PlanetEncounter) :
    (consult_wise_entity s enc).entity_presence = s.entity_presence ∧
    (consult_wise_entity s enc).energy = s.energy ∧
    (consult_wise_entity s enc).allies = s.allies ∧
    (consult_wise_entity s enc).negative_influence = s.negative_influence ∧
    (consult_wise_entity s enc).skills = s.skills ∧
    (consult_wise_entity s enc).rest_count = s.rest_count ∧
    (0 < s.entity_presence →
      (consult_wise_entity s enc).entity_trust = s.entity_trust + 1) ∧
    (s.entity_presence ≤ 0 → consult_wise_entity s enc = s) := by
  unfold consult_wise_entity
  split_ifs with h
  · simp_all
  · simp_all

/-- A sample mid-run state with the entity's presence exhausted. -/
def sample_absent_entity : GameState :=
  { energy := pool_5_12, entity_presence := 0 }

/-- Witness for C10 at concrete inputs. -/
theorem spec_C10_consult_witness :
    (consult_wise_entity initial_state none).entity_trust
      = initial_state.entity_trust + 1 ∧
    consult_wise_entity sample_absent_entity none = sample_absent_entity :=
  ⟨(spec_C10_consult initial_state none).2.2.2.2.2.2.1 (by decide),
   (spec_C10_consult sample_absent_entity none).2.2.2.2.2.2.2 (by decide)⟩

/-- C5: approaching a draining encounter whose penalty exceeds the (non-
negative) current energy makes the failed `spend` zero out the energy, the
termination check fire, and the handler end the run at once: the outcome is
`terminated` with only `energy.current` changed (to 0) — `negative_influence`
and `entity_presence` untouched — and the resist/ally/rest sub-choice menu is
never reached. -/
theorem spec_C5_approach_drained (s : GameState) (enc : PlanetEncounter)
    (hb : enc.is_beneficial = false) (_h0 : 0 ≤ s.energy.current)
    (hlt : s.energy.current < enc.penalty) :
    approach s enc
      = ApproachOutcome.terminated { s with energy := { s.energy with current := 0 } } ∧
    (approach s enc).state.energy.current = 0 ∧
    (approach s enc).state.negative_influence = s.negative_influence ∧
    (approach s enc).state.entity_presence = s.entity_presence ∧
    ∀ s2, approach s enc ≠ ApproachOutcome.subMenu s2 := by
  have hmain :
      approach s enc
        = ApproachOutcome.terminated { s with energy := { s.energy with current := 0 } } := by
    unfold approach
    rw [if_neg (by simp [hb]), if_pos]
    · have hrun : (s.energy.spendRun enc.penalty).1 = { s.energy with current := 0 } := by
        unfold EnergyPool.spendRun EnergyPool.can_spend
        rw [if_pos (by simp; omega)]
      rw [hrun, if_pos (by simp [check_energy, EnergyPool.is_depleted])]
    · simp [EnergyPool.can_spend]
      omega
  refine ⟨hmain, ?_, ?_, ?_, ?_⟩
  · rw [hmain]; rfl
  · rw [hmain]; rfl
  · rw [hmain]; rfl
  · intro s2
    rw [hmain]
    simp

/-- Witness for C5: penalty 3 against current energy 2, as in the spec's
scenario. -/
theorem spec_C5_approach_drained_witness :
    approach { energy := { current := 2, maximum := 12 } } sample_draining
      = ApproachOutcome.terminated { energy := { current := 0, maximum := 12 } } :=
  (spec_C5_approach_drained { energy := { current := 2, maximum := 12 } }
    sample_draining (by decide) (by decide) (by decide)).1

/-- C7: the post-resolution trust adjustment of `interact_with_planet` (which
first forces the `resolved` flag to true): a beneficial encounter increments
`entity_trust` by 1, a draining encounter with positive `negative_influence`
decrements it with floor -3, and a draining encounter with no remaining
negative influence leaves the state unchanged. -/
theorem spec_C7_trust_adjustment (s : GameState) (enc : PlanetEncounter) (resolved : Bool) :
    (enc.is_beneficial = true →
      trust_adjustment s enc resolved = { s with entity_trust := s.entity_trust + 1 }) ∧
    (enc.is_beneficial = false → 0 < s.negative_influence →
      trust_adjustment s enc resolved
        = { s with entity_trust := max (s.entity_trust - 1) (-3) }) ∧
    (enc.is_beneficial = false → s.negative_influence ≤ 0 →
      trust_adjustment s enc resolved = s) := by
  refine ⟨?_, ?_, ?_⟩
  · intro hb
    unfold trust_adjustment
    rw [if_pos]
    constructor
    · exact hb
    · cases resolved <;> simp
  · intro hb hn
    unfold trust_adjustment
    rw [if_neg (by simp [hb]), if_pos (by simp [hb]; omega)]
  · intro hb hn
    unfold trust_adjustment
    rw [if_neg (by simp [hb]), if_neg (by simp [hb]; omega)]

/-- A sample beneficial encounter (the first of the four fixed ones). -/
def sample_beneficial : PlanetEncounter :=
  { name := "Compas Cristallin", disposition := "benefique" }

/-- Witness for C7 at concrete inputs. -/
theorem spec_C7_trust_adjustment_witness :
    trust_adjustment sample_one_ally sample_beneficial false
      = { sample_one_ally with entity_trust := 1 } ∧
    trust_adjustment sample_one_ally sample_draining true
      = { sample_one_ally with entity_trust := -1 } ∧
    trust_adjustment sample_absent_entity sample_draining true
      = sample_absent_entity := by
  refine ⟨?_, ?_, ?_⟩
  · have h := (spec_C7_trust_adjustment sample_one_ally sample_beneficial false).1 (by decide)
    rw [h]; decide
  · have h := (spec_C7_trust_adjustment sample_one_ally sample_draining true).2.1
      (by decide) (by decide)
    rw [h]; decide
  · exact (spec_C7_trust_adjustment sample_absent_entity sample_draining true).2.2
      (by decide) (by decide)

/-- C6: with the key not yet acquired and strictly more than 2 energy,
learning "solidarite" (Éclat de Solidarité, cost 2) succeeds: it deducts 2
energy once, appends the display name to the skill list exactly once and
records the key; calling `learn` again on the same key returns with the state
completely unchanged. -/
theorem spec_C6_learn_twice (st : SkillTreeState)
    (hnot : "solidarite" ∉ st.acquired) (h2 : 2 < st.game.energy.current) :
    ∃ st1 : SkillTreeState,
      learn st "solidarite" = LearnResult.ok st1 ∧
      st1.acquired = st.acquired ++ ["solidarite"] ∧
      st1.game.skills = st.game.skills ++ ["Éclat de Solidarité"] ∧
      st1.game.energy.current = st.game.energy.current - 2 ∧
      st1.game.energy.maximum = st.game.energy.maximum ∧
      learn st1 "solidarite" = LearnResult.ok st1 := by
  have hcan : st.game.energy.can_spend 2 = true := by
    simp [EnergyPool.can_spend]
    omega
  refine ⟨⟨st.acquired ++ ["solidarite"],
      { st.game with
          energy := { st.game.energy with current := st.game.energy.current - 2 },
          skills := st.game.skills ++ ["Éclat de Solidarité"] }⟩, ?_, rfl, rfl, rfl, rfl, ?_⟩
  · unfold learn
    rw [if_neg hnot]
    simp only [skill_catalog]
    simp only [EnergyPool.can_spend, EnergyPool.spendRun, check_energy,
      EnergyPool.is_depleted]
    have hge : st.game.energy.current ≥ 2 := by omega
    have hpos : ¬ (st.game.energy.current - 2 ≤ 0) := by omega
    simp [hge, hpos]
  · unfold learn
    rw [if_pos (by simp)]

/-- Witness for C6 at a concrete fresh skill-tree state. -/
theorem spec_C6_learn_twice_witness :
    ∃ st1 : SkillTreeState,
      learn { acquired := [], game := initial_state } "solidarite" = LearnResult.ok st1 ∧
      st1.acquired = [] ++ ["solidarite"] ∧
      st1.game.skills = initial_state.skills ++ ["Éclat de Solidarité"] ∧
      st1.game.energy.current = initial_state.energy.current - 2 ∧
      st1.game.energy.maximum = initial_state.energy.maximum ∧
      learn st1 "solidarite" = LearnResult.ok st1 :=
  spec_C6_learn_twice { acquired := [], game := initial_state } (by decide) (by decide)

/-- C8: on any input line whose stripped, lowercased text is "quit" or
"exit", one step of the `prompt_choice` loop quits the program at once
(no handler dispatch, no re-prompt), and end-of-input behaves identically. -/
theorem spec_C8_quit (s : String) (n : Nat) :
    ((py_lower (py_strip s) = "quit" ∨ py_lower (py_strip s) = "exit") →
      prompt_step (InputLine.line s) n = PromptOutcome.quitGame) ∧
    prompt_step InputLine.eofLine n = PromptOutcome.quitGame := by
  constructor
  · intro h
    simp only [prompt_step]
    rw [if_pos h]
  · rfl

/-- Witness for C8 on a concrete mixed-case padded line. -/
theorem spec_C8_quit_witness :
    prompt_step (InputLine.line "  QUIT ") 4 = PromptOutcome.quitGame ∧
    prompt_step InputLine.eofLine 4 = PromptOutcome.quitGame :=
  ⟨(spec_C8_quit "  QUIT " 4).1 (Or.inl (by decide)),
   (spec_C8_quit "  QUIT " 4).2⟩

/-! ## Invariant preservation lemmas, one per state-mutating operation -/

lemma skill_catalog_cost_nonneg (k nm : String) (c : Int)
    (h : skill_catalog k = some (nm, c)) : 0 ≤ c := by
  unfold skill_catalog at h
  split at h
  all_goals simp_all
  all_goals omega

lemma inv_encounter_cat {s : GameState} (t : String) (h : Invariant s) :
    Invariant (encounter_cat_planet s t) := by
  obtain ⟨hp, h3, h4, h5⟩ := h
  refine ⟨poolInv_restoreClamped (by omega) hp, ?_, ?_, h5⟩
  · show 0 ≤ min (s.entity_presence + 1) 4
    omega
  · show min (s.entity_presence + 1) 4 ≤ 4
    omega

lemma inv_resist {s : GameState} (h : Invariant s) :
    Invariant (resist_exhausting_planet s) := by
  obtain ⟨hp, h3, h4, h5⟩ := h
  unfold resist_exhausting_planet
  split_ifs with hc
  all_goals first
    | exact inv_rest ⟨hp, h3, h4, h5⟩
    | exact ⟨poolInv_spendRun (by omega) hp, h3, h4,
        (by show 0 ≤ max 0 (s.negative_influence - 1); omega)⟩

lemma inv_call_allies {s : GameState} (enc : PlanetEncounter) (h : Invariant s) :
    Invariant (call_allies_against_planet s enc) := by
  obtain ⟨hp, h3, h4, h5⟩ := h
  unfold call_allies_against_planet
  split_ifs with hc
  · exact ⟨hp, h3, h4, h5⟩
  · refine ⟨hp, ?_, ?_, ?_⟩
    · show 0 ≤ min (s.entity_presence + 1) 4
      omega
    · show min (s.entity_presence + 1) 4 ≤ 4
      omega
    · show 0 ≤ max 0 (s.negative_influence - 1)
      omega

lemma inv_consult {s : GameState} (enc : Option PlanetEncounter) (h : Invariant s) :
    Invariant (consult_wise_entity s enc) := by
  obtain ⟨hp, h3, h4, h5⟩ := h
  unfold consult_wise_entity
  split_ifs with hc
  · exact ⟨hp, h3, h4, h5⟩
  · exact ⟨hp, h3, h4, h5⟩

lemma inv_trust_adjustment {s : GameState} (enc : PlanetEncounter) (r : Bool)
    (h : Invariant s) : Invariant (trust_adjustment s enc r) := by
  obtain ⟨hp, h3, h4, h5⟩ := h
  simp only [trust_adjustment]
  split_ifs
  all_goals exact ⟨hp, h3, h4, h5⟩

lemma inv_gain_clarity {s : GameState} {a : Int} (ha : 0 ≤ a) (h : Invariant s) :
    Invariant (gain_clarity s a) := by
  obtain ⟨hp, h3, h4, h5⟩ := h
  refine ⟨poolInv_restoreClamped ha hp, ?_, ?_, h5⟩
  · show 0 ≤ min (s.entity_presence + 1) 4
    omega
  · show min (s.entity_presence + 1) 4 ≤ 4
    omega

lemma inv_gamble {s : GameState} {g c : Int} (hg : 0 ≤ g) (hc : 0 ≤ c)
    (h : Invariant s) : Invariant (gamble_energy s g c) := by
  obtain ⟨hp, h3, h4, h5⟩ := h
  unfold gamble_energy
  split_ifs with hcs
  · exact ⟨poolInv_restoreClamped hg (poolInv_spendRun hc hp), h3, h4, h5⟩
  · exact ⟨poolInv_spendRun hc hp, h3, h4, h5⟩

lemma inv_bolster {s : GameState} (h : Invariant s) :
    Invariant (bolster_presence s) := by
  obtain ⟨hp, h3, h4, h5⟩ := h
  refine ⟨poolInv_restoreClamped (by omega) hp, ?_, ?_, h5⟩
  · show 0 ≤ min (s.entity_presence + 2) 4
    omega
  · show min (s.entity_presence + 2) 4 ≤ 4
    omega

lemma inv_soothe {s : GameState} (h : Invariant s) :
    Invariant (soothe_influences s) := by
  obtain ⟨hp, h3, h4, h5⟩ := h
  refine ⟨poolInv_restoreClamped (by omega) hp, h3, h4, ?_⟩
  show 0 ≤ max 0 (s.negative_influence - 1)
  omega

lemma inv_share_burden {s : GameState} (h : Invariant s) :
    Invariant (share_burden s) := by
  obtain ⟨hp, h3, h4, h5⟩ := h
  unfold share_burden
  split_ifs with hc
  · exact ⟨poolInv_restoreClamped (by omega) hp, h3, h4, h5⟩
  · exact ⟨poolInv_restoreClamped (by omega) hp, h3, h4, h5⟩

lemma inv_weave {s : GameState} (h : Invariant s) :
    Invariant (weave_support s) := by
  obtain ⟨hp, h3, h4, h5⟩ := h
  exact ⟨poolInv_restoreClamped (by omega) hp, h3, h4, h5⟩

lemma inv_orchestrate {s : GameState} (h : Invariant s) :
    Invariant (orchestrate_alliance s) := by
  obtain ⟨hp, h3, h4, h5⟩ := h
  exact ⟨poolInv_restoreClamped (by omega) hp, h3, h4, h5⟩

lemma inv_approach {s : GameState} {enc : PlanetEncounter}
    (hr : 0 ≤ enc.reward) (hpen : 0 ≤ enc.penalty) (h : Invariant s) :
    Invariant (approach s enc).state := by
  obtain ⟨hp, h3, h4, h5⟩ := h
  simp only [approach]
  split_ifs
  all_goals first
    | exact ⟨poolInv_restoreClamped hr hp, h3, h4, h5⟩
    | exact ⟨poolInv_spendRun hpen hp, h3, h4, h5⟩
    | exact ⟨poolInv_spendRun hpen hp,
        (by show 0 ≤ max (s.entity_presence - 1) 0; omega),
        (by show max (s.entity_presence - 1) 0 ≤ 4; omega),
        (by show 0 ≤ s.negative_influence + 1; omega)⟩

lemma inv_learn {st : SkillTreeState} {k : String} {st2 : SkillTreeState}
    (h : Invariant st.game)
    (hl : learn st k = LearnResult.ok st2 ∨ learn st k = LearnResult.terminated st2) :
    Invariant st2.game := by
  obtain ⟨hp, h3, h4, h5⟩ := h
  unfold learn at hl
  by_cases hk : k ∈ st.acquired
  · rw [if_pos hk] at hl
    rcases hl with hl | hl
    · injection hl with hl
      rw [← hl]
      exact ⟨hp, h3, h4, h5⟩
    · cases hl
  · rw [if_neg hk] at hl
    cases hcat : skill_catalog k with
    | none =>
      rw [hcat] at hl
      rcases hl with hl | hl <;> cases hl
    | some v =>
      obtain ⟨nm, c⟩ := v
      have hc : 0 ≤ c := skill_catalog_cost_nonneg k nm c hcat
      rw [hcat] at hl
      simp only at hl
      by_cases hcs : st.game.energy.can_spend c
      · rw [if_neg (by simp [hcs])] at hl
        split_ifs at hl
        all_goals rcases hl with hl | hl
        all_goals first
          | (cases hl
             exact ⟨poolInv_spendRun hc hp, h3, h4, h5⟩)
          | cases hl
      · rw [if_pos (by simp [hcs])] at hl
        split_ifs at hl
        all_goals rcases hl with hl | hl
        all_goals first
          | (cases hl
             exact inv_rest ⟨hp, h3, h4, h5⟩)
          | cases hl

/-- C2: the engine invariant — `0 ≤ energy.current ≤ energy.maximum`,
`0 ≤ entity_presence ≤ 4`, `0 ≤ negative_influence` — holds for the initial
state and is preserved by every `EnergyPool` operation with a non-negative
argument and by the state effect of every encounter/stage handler of the
narrative engine. -/
theorem spec_C2_invariant_preservation :
    Invariant initial_state ∧
    (∀ (p : EnergyPool) (a : Int) (q : EnergyPool) (b : Bool),
      0 ≤ a → PoolInv p → p.spend a = some (q, b) → PoolInv q) ∧
    (∀ (p : EnergyPool) (a : Int) (q : EnergyPool),
      0 ≤ a → PoolInv p → p.restore a = some q → PoolInv q) ∧
    (∀ s, Invariant s → Invariant (rest s)) ∧
    (∀ s t, Invariant s → Invariant (encounter_cat_planet s t)) ∧
    (∀ (st : SkillTreeState) (k : String) (st2 : SkillTreeState), Invariant st.game →
      (learn st k = LearnResult.ok st2 ∨ learn st k = LearnResult.terminated st2) →
      Invariant st2.game) ∧
    (∀ s enc, 0 ≤ enc.reward → 0 ≤ enc.penalty → Invariant s →
      Invariant (approach s enc).state) ∧
    (∀ s, Invariant s → Invariant (resist_exhausting_planet s)) ∧
    (∀ s enc, Invariant s → Invariant (call_allies_against_planet s enc)) ∧
    (∀ s enc, Invariant s → Invariant (consult_wise_entity s enc)) ∧
    (∀ s enc r, Invariant s → Invariant (trust_adjustment s enc r)) ∧
    (∀ s a, 0 ≤ a → Invariant s → Invariant (gain_clarity s a)) ∧
    (∀ s g c, 0 ≤ g → 0 ≤ c → Invariant s → Invariant (gamble_energy s g c)) ∧
    (∀ s, Invariant s → Invariant (bolster_presence s)) ∧
    (∀ s, Invariant s → Invariant (soothe_influences s)) ∧
    (∀ s, Invariant s → Invariant (share_burden s)) ∧
    (∀ s, Invariant s → Invariant (weave_support s)) ∧
    (∀ s, Invariant s → Invariant (orchestrate_alliance s)) := by
  refine ⟨by decide, ?_, ?_, ?_, ?_, ?_, ?_, ?_, ?_, ?_, ?_, ?_, ?_, ?_, ?_, ?_, ?_, ?_⟩
  · intro p a q b ha hp hs
    unfold EnergyPool.spend at hs
    rw [if_neg (not_lt.mpr ha)] at hs
    have h2 : p.spendRun a = (q, b) := Option.some.inj hs
    have hq : q = (p.spendRun a).1 := by rw [h2]
    rw [hq]
    exact poolInv_spendRun ha hp
  · intro p a q ha hp hs
    unfold EnergyPool.restore at hs
    rw [if_neg (not_lt.mpr ha)] at hs
    have hq : q = p.restoreClamped a := (Option.some.inj hs).symm
    rw [hq]
    exact poolInv_restoreClamped ha hp
  · intro s h
    exact inv_rest h
  · intro s t h
    exact inv_encounter_cat t h
  · intro st k st2 h hl
    exact inv_learn h hl
  · intro s enc hr hpen h
    exact inv_approach hr hpen h
  · intro s h
    exact inv_resist h
  · intro s enc h
    exact inv_call_allies enc h
  · intro s enc h
    exact inv_consult enc h
  · intro s enc r h
    exact inv_trust_adjustment enc r h
  · intro s a ha h
    exact inv_gain_clarity ha h
  · intro s g c hg hc h
    exact inv_gamble hg hc h
  · intro s h
    exact inv_bolster h
  · intro s h
    exact inv_soothe h
  · intro s h
    exact inv_share_burden h
  · intro s h
    exact inv_weave h
  · intro s h
    exact inv_orchestrate h

/-- Witness for C2 at concrete inputs. -/
theorem spec_C2_invariant_preservation_witness :
    Invariant (rest initial_state) ∧
    Invariant (approach sample_one_ally sample_draining).state := by
  have h := spec_C2_invariant_preservation
  exact ⟨h.2.2.2.1 initial_state (by decide),
    h.2.2.2.2.2.2.1 sample_one_ally sample_draining (by decide) (by decide) (by decide)⟩
